import Mathlib

/-!
Verification of the AI provider configuration resolver in
`backend/services/ai_providers/__init__.py`.

The module is pure lookup-and-branch logic over two configuration sources:

* the Flask `current_app.config` settings store — accessible only inside an
  application context (outside it the access raises `RuntimeError`, which the
  code catches and treats as "store absent"); a key may be present in the
  store with any value, including the empty string or Python `None`;
* process environment variables (`os.getenv`), which are either unset or a
  string.

We embed this shallowly: the store is `Option Store` (`none` models the
caught `RuntimeError` / missing `current_app.config`), where `Store` is an
association list from keys to `Option String` (`none` models a Python `None`
value sitting in the store).  The environment is an association list from
keys to `String`.  Python string truthiness (`if not api_key`) is modelled by
`pyTruthy`, and Python `a or b` on optional strings by `pyOr`.  Functions
that `raise ValueError` become `Except ProviderError` values; the resolver
raises `ValueError` for two distinct reasons, which we separate into the
constructors `MissingCredential` and `InvalidFormat`, each carrying the
message text built exactly as the source builds it (minus quote characters).
-/

/-- Environment variables: unset keys are absent from the list. -/
def Env : Type := List (String × String)

/-- The Flask `app.config` settings store: a key may map to a Python string
or to Python `None` (modelled `Option String`). -/
def Store : Type := List (String × Option String)

/-- `os.getenv(key)`: `none` when the variable is unset. -/
def lookupEnv (env : Env) (key : String) : Option String :=
  List.lookup key env

/-- Store access: `none` when the key is not in `app.config`; otherwise the
stored value (which itself may be Python `None`). -/
def lookupStore (s : Store) (key : String) : Option (Option String) :=
  List.lookup key s

/-- The ambient context a resolver call runs in: the settings store when a
Flask application context is active (`some`), and the process environment.
`store = none` models the `RuntimeError` path: no application context. -/
structure Ctx where
  store : Option Store
  env : Env

/-- Python `str.lower()` (character-wise, as `String.toLower` computes it;
defined over the character list so the kernel can evaluate it). -/
def strLower (s : String) : String := ⟨s.data.map Char.toLower⟩

/-- Python `str.upper()` (character-wise, as `String.toUpper` computes it;
defined over the character list so the kernel can evaluate it). -/
def strUpper (s : String) : String := ⟨s.data.map Char.toUpper⟩

/-- Python truthiness of an optional string: `None` and `""` are falsy. -/
def pyTruthy : Option String → Bool
  | none => false
  | some s => !s.isEmpty

/-- Python `a or b` on optional strings: `a` when truthy, else `b`. -/
def pyOr (a b : Option String) : Option String :=
  if pyTruthy a then a else b

/-- The two reasons the source raises `ValueError`, split by message. -/
inductive ProviderError where
  | MissingCredential (msg : String)
  | InvalidFormat (msg : String)
deriving DecidableEq, Repr

instance {ε α : Type} [DecidableEq ε] [DecidableEq α] : DecidableEq (Except ε α) :=
  fun a b =>
    match a, b with
    | .ok x, .ok y =>
        if h : x = y then isTrue (by rw [h]) else isFalse fun hh => h (Except.ok.inj hh)
    | .error x, .error y =>
        if h : x = y then isTrue (by rw [h]) else isFalse fun hh => h (Except.error.inj hh)
    | .ok _, .error _ => isFalse fun h => Except.noConfusion h
    | .error _, .ok _ => isFalse fun h => Except.noConfusion h

/-- `get_provider_format()`: Flask `app.config['AI_PROVIDER_FORMAT']` when
the context is active and the value is truthy, else the environment variable
`AI_PROVIDER_FORMAT`, else `"gemini"`; lower-cased. -/
def get_provider_format (ctx : Ctx) : String :=
  let fromEnv : String :=
    ((lookupEnv ctx.env "AI_PROVIDER_FORMAT").getD "gemini") |> strLower
  match ctx.store with
  | some s =>
      match lookupStore s "AI_PROVIDER_FORMAT" with
      | some (some v) => if v.isEmpty then fromEnv else v |> strLower
      | _ => fromEnv
  | none => fromEnv

/-- The `get_config` closure inside `_get_unified_provider_config`:
`app.config` wins when the key is present with a non-`None` value (even the
empty string); otherwise the environment variable; otherwise the default
(Python `None` when no default was supplied). -/
def get_config (ctx : Ctx) (key : String) (default : Option String) :
    Option String :=
  let fromEnv : Option String :=
    match lookupEnv ctx.env key with
    | some v => some v
    | none => default
  match ctx.store with
  | some s =>
      match lookupStore s key with
      | some (some v) => some v
      | _ => fromEnv
  | none => fromEnv

/-- `_get_unified_provider_config()`: resolve `(format, api_key, api_base)`
from the unified `AI_PROVIDER_FORMAT` configuration. -/
def _get_unified_provider_config (ctx : Ctx) :
    Except ProviderError (String × Option String × Option String) :=
  let provider_format := get_provider_format ctx
  if provider_format = "openai" then
    let api_key :=
      pyOr (get_config ctx "OPENAI_API_KEY" none)
           (get_config ctx "GOOGLE_API_KEY" none)
    let api_base := get_config ctx "OPENAI_API_BASE" (some "https://aihubmix.com/v1")
    if pyTruthy api_key then
      .ok (provider_format, api_key, api_base)
    else
      .error (.MissingCredential
        "OPENAI_API_KEY or GOOGLE_API_KEY (from database settings or environment) is required when AI_PROVIDER_FORMAT=openai.")
  else
    let api_key := get_config ctx "GOOGLE_API_KEY" none
    let api_base := get_config ctx "GOOGLE_API_BASE" none
    if pyTruthy api_key then
      .ok ("gemini", api_key, api_base)
    else
      .error (.MissingCredential
        "GOOGLE_API_KEY (from database settings or environment) is required")

/-- `_get_separated_provider_config(provider_type)`: per-capability
resolution driven by the raw environment variable
`{PROVIDER_TYPE}_PROVIDER_FORMAT`. -/
def _get_separated_provider_config (ctx : Ctx) (provider_type : String) :
    Except ProviderError (String × Option String × Option String) :=
  let format_var := (strUpper provider_type) ++ "_PROVIDER_FORMAT"
  let provider_format := ((lookupEnv ctx.env format_var).getD "") |> strLower
  if provider_format.isEmpty then
    _get_unified_provider_config ctx
  else if provider_format = "openai" then
    let api_key := lookupEnv ctx.env ((strUpper provider_type) ++ "_OPENAI_API_KEY")
    let api_base := lookupEnv ctx.env ((strUpper provider_type) ++ "_OPENAI_API_BASE")
    if pyTruthy api_key then
      .ok (provider_format, api_key, api_base)
    else
      .error (.MissingCredential
        (format_var ++ "=openai requires " ++ (strUpper provider_type) ++
         "_OPENAI_API_KEY to be set"))
  else if provider_format = "gemini" then
    let api_key := lookupEnv ctx.env ((strUpper provider_type) ++ "_GEMINI_API_KEY")
    let api_base := lookupEnv ctx.env ((strUpper provider_type) ++ "_GEMINI_API_BASE")
    if pyTruthy api_key then
      .ok (provider_format, api_key, api_base)
    else
      let api_key := lookupEnv ctx.env "GOOGLE_API_KEY"
      let api_base := lookupEnv ctx.env "GOOGLE_API_BASE"
      if pyTruthy api_key then
        .ok (provider_format, api_key, api_base)
      else
        .error (.MissingCredential
          (format_var ++ "=gemini requires either " ++ (strUpper provider_type) ++
           "_GEMINI_API_KEY or GOOGLE_API_KEY to be set"))
  else
    .error (.InvalidFormat
      ("Invalid " ++ format_var ++ ": " ++ provider_format ++
       ". Must be gemini or openai"))

/-- The text-capability adapters, opaque collaborators recording their
construction arguments. -/
inductive TextProvider where
  | GenAITextProvider (api_key api_base : Option String) (model : String)
  | OpenAITextProvider (api_key api_base : Option String) (model : String)
deriving DecidableEq, Repr

/-- The image-capability adapters, opaque collaborators recording their
construction arguments. -/
inductive ImageProvider where
  | GenAIImageProvider (api_key api_base : Option String) (model : String)
  | OpenAIImageProvider (api_key api_base : Option String) (model : String)
deriving DecidableEq, Repr

/-- `get_text_provider(model)`: separated resolution when
`TEXT_PROVIDER_FORMAT` is set to a truthy value, unified otherwise; then the
adapter family is chosen by the resolved format. -/
def get_text_provider (ctx : Ctx) (model : String := "gemini-3-flash-preview") :
    Except ProviderError TextProvider := do
  let cfg ←
    if pyTruthy (lookupEnv ctx.env "TEXT_PROVIDER_FORMAT") then
      _get_separated_provider_config ctx "text"
    else
      _get_unified_provider_config ctx
  let (provider_format, api_key, api_base) := cfg
  if provider_format = "openai" then
    return .OpenAITextProvider api_key api_base model
  else
    return .GenAITextProvider api_key api_base model

/-- `get_image_provider(model)`: separated resolution when
`IMAGE_PROVIDER_FORMAT` is set to a truthy value, unified otherwise; then the
adapter family is chosen by the resolved format. -/
def get_image_provider (ctx : Ctx) (model : String := "gemini-3-pro-image-preview") :
    Except ProviderError ImageProvider := do
  let cfg ←
    if pyTruthy (lookupEnv ctx.env "IMAGE_PROVIDER_FORMAT") then
      _get_separated_provider_config ctx "image"
    else
      _get_unified_provider_config ctx
  let (provider_format, api_key, api_base) := cfg
  if provider_format = "openai" then
    return .OpenAIImageProvider api_key api_base model
  else
    return .GenAIImageProvider api_key api_base model


/-! ### Helper lemmas -/

lemma pyTruthy_eq_true_iff {k : Option String} :
    pyTruthy k = true ↔ ∃ s, k = some s ∧ s.isEmpty = false := by
  cases k with
  | none => simp [pyTruthy]
  | some s => simp [pyTruthy]

lemma lookupStore_nil (key : String) : lookupStore [] key = none := rfl

lemma lookupEnv_nil (key : String) : lookupEnv [] key = none := rfl

lemma get_config_store_hit {s : Store} {key v : String} (env : Env)
    (d : Option String) (h : lookupStore s key = some (some v)) :
    get_config ⟨some s, env⟩ key d = some v := by
  simp [get_config, h]

lemma unified_ok_pyTruthy {ctx : Ctx} {f : String} {k b : Option String}
    (h : _get_unified_provider_config ctx = .ok (f, k, b)) :
    pyTruthy k = true := by
  unfold _get_unified_provider_config at h
  dsimp only at h
  split at h
  · split at h
    · simp only [Except.ok.injEq, Prod.mk.injEq] at h
      obtain ⟨-, hk, -⟩ := h
      subst hk
      assumption
    · exact absurd h (by simp)
  · split at h
    · simp only [Except.ok.injEq, Prod.mk.injEq] at h
      obtain ⟨-, hk, -⟩ := h
      subst hk
      assumption
    · exact absurd h (by simp)

lemma separated_ok_pyTruthy {ctx : Ctx} {pt f : String} {k b : Option String}
    (h : _get_separated_provider_config ctx pt = .ok (f, k, b)) :
    pyTruthy k = true := by
  unfold _get_separated_provider_config at h
  dsimp only at h
  split at h
  · exact unified_ok_pyTruthy h
  · split at h
    · split at h
      · simp only [Except.ok.injEq, Prod.mk.injEq] at h
        obtain ⟨-, hk, -⟩ := h
        subst hk
        assumption
      · exact absurd h (by simp)
    · split at h
      · split at h
        · simp only [Except.ok.injEq, Prod.mk.injEq] at h
          obtain ⟨-, hk, -⟩ := h
          subst hk
          assumption
        · split at h
          · simp only [Except.ok.injEq, Prod.mk.injEq] at h
            obtain ⟨-, hk, -⟩ := h
            subst hk
            assumption
          · exact absurd h (by simp)
      · exact absurd h (by simp)

lemma get_config_none_store (env : Env) (key : String) (d : Option String) :
    get_config ⟨none, env⟩ key d = get_config ⟨some [], env⟩ key d := by
  simp [get_config, lookupStore, List.lookup]

lemma get_provider_format_none_store (env : Env) :
    get_provider_format ⟨none, env⟩ = get_provider_format ⟨some [], env⟩ := by
  simp [get_provider_format, lookupStore, List.lookup]

/-! ### Claim theorems -/

/-- C9: when the settings store is inaccessible (no valid execution context,
modelled by `store = none`), no error reaches the caller — `get_config`,
`get_provider_format` and unified resolution behave exactly as they do with
an accessible store that contains no keys, i.e. the lookup falls through to
the environment tier and then the default. -/
theorem C9_store_inaccessible_falls_through (env : Env) (key : String)
    (d : Option String) :
    get_config ⟨none, env⟩ key d = get_config ⟨some [], env⟩ key d ∧
    get_provider_format ⟨none, env⟩ = get_provider_format ⟨some [], env⟩ ∧
    _get_unified_provider_config ⟨none, env⟩ =
      _get_unified_provider_config ⟨some [], env⟩ := by
  refine ⟨get_config_none_store env key d, get_provider_format_none_store env, ?_⟩
  simp only [_get_unified_provider_config, get_provider_format_none_store,
    get_config_none_store]

/-- C8: `get_provider_format` prefers a truthy settings-store value of
`AI_PROVIDER_FORMAT`, else the environment variable of the same name, else
the default `"gemini"`, lower-casing the result; in particular with neither
source providing a value it returns `"gemini"`. -/
theorem C8_get_provider_format_priority (ctx : Ctx) :
    (∀ s v, ctx.store = some s →
       lookupStore s "AI_PROVIDER_FORMAT" = some (some v) → v.isEmpty = false →
       get_provider_format ctx = strLower v) ∧
    ((∀ s v, ctx.store = some s →
        lookupStore s "AI_PROVIDER_FORMAT" = some (some v) → v.isEmpty = true) →
      (∀ w, lookupEnv ctx.env "AI_PROVIDER_FORMAT" = some w →
        get_provider_format ctx = strLower w) ∧
      (lookupEnv ctx.env "AI_PROVIDER_FORMAT" = none →
        get_provider_format ctx = "gemini")) := by
  constructor
  · intro s v hs hl hv
    simp [get_provider_format, hs, hl, hv]
  · intro hall
    constructor
    · intro w hw
      cases hst : ctx.store with
      | none => simp [get_provider_format, hst, hw]
      | some s =>
        cases hl : lookupStore s "AI_PROVIDER_FORMAT" with
        | none => simp [get_provider_format, hst, hl, hw]
        | some ov =>
          cases ov with
          | none => simp [get_provider_format, hst, hl, hw]
          | some v => simp [get_provider_format, hst, hl, hall s v hst hl, hw]
    · intro hw
      cases hst : ctx.store with
      | none => simp [get_provider_format, hst, hw]; rfl
      | some s =>
        cases hl : lookupStore s "AI_PROVIDER_FORMAT" with
        | none => simp [get_provider_format, hst, hl, hw]; rfl
        | some ov =>
          cases ov with
          | none => simp [get_provider_format, hst, hl, hw]; rfl
          | some v =>
            simp [get_provider_format, hst, hl, hall s v hst hl, hw]; rfl

/-- Witness for C8: with no store and an empty environment,
`get_provider_format` returns `"gemini"`. -/
theorem C8_get_provider_format_priority_witness :
    get_provider_format ⟨none, ([] : Env)⟩ = "gemini" :=
  ((C8_get_provider_format_priority ⟨none, []⟩).2
    (fun _ _ h _ => Option.noConfusion h)).2 rfl

/-- C4: with resolved unified format `openai`, the api_key is
`lookup(OPENAI_API_KEY)` or, when that is empty/absent,
`lookup(GOOGLE_API_KEY)`; the api_base is `lookup(OPENAI_API_BASE)` with
default `"https://aihubmix.com/v1"`; and resolution fails with
`MissingCredential` exactly when both key lookups are empty/absent. -/
theorem C4_unified_openai_resolution (ctx : Ctx)
    (h : get_provider_format ctx = "openai") :
    (pyTruthy (get_config ctx "OPENAI_API_KEY" none) = true →
      _get_unified_provider_config ctx =
        .ok ("openai", get_config ctx "OPENAI_API_KEY" none,
             get_config ctx "OPENAI_API_BASE" (some "https://aihubmix.com/v1"))) ∧
    (pyTruthy (get_config ctx "OPENAI_API_KEY" none) = false →
     pyTruthy (get_config ctx "GOOGLE_API_KEY" none) = true →
      _get_unified_provider_config ctx =
        .ok ("openai", get_config ctx "GOOGLE_API_KEY" none,
             get_config ctx "OPENAI_API_BASE" (some "https://aihubmix.com/v1"))) ∧
    (pyTruthy (get_config ctx "OPENAI_API_KEY" none) = false →
     pyTruthy (get_config ctx "GOOGLE_API_KEY" none) = false →
      _get_unified_provider_config ctx =
        .error (.MissingCredential
          "OPENAI_API_KEY or GOOGLE_API_KEY (from database settings or environment) is required when AI_PROVIDER_FORMAT=openai.")) := by
  refine ⟨fun h1 => ?_, fun h1 h2 => ?_, fun h1 h2 => ?_⟩ <;>
    simp [_get_unified_provider_config, h, pyOr, h1]
  · simp [h2]
  · simp [h2]

/-- Witness for C4: format `openai` with `OPENAI_API_KEY` set resolves to
that key and the default base. -/
theorem C4_unified_openai_resolution_witness :
    _get_unified_provider_config
      ⟨none, [("AI_PROVIDER_FORMAT", "openai"), ("OPENAI_API_KEY", "sk-test")]⟩ =
      .ok ("openai", some "sk-test", some "https://aihubmix.com/v1") :=
  (C4_unified_openai_resolution
      ⟨none, [("AI_PROVIDER_FORMAT", "openai"), ("OPENAI_API_KEY", "sk-test")]⟩
      (by decide)).1 (by decide)

/-- C6: any resolved unified format other than `openai` (e.g. `bogus`) is
normalized to `gemini`: resolution uses the `GOOGLE_API_KEY` /
`GOOGLE_API_BASE` lookups and fails only with `MissingCredential` when the
key lookup is empty — never with an invalid-format error. -/
theorem C6_unified_nonopenai_normalizes (ctx : Ctx)
    (h : get_provider_format ctx ≠ "openai") :
    (pyTruthy (get_config ctx "GOOGLE_API_KEY" none) = true →
      _get_unified_provider_config ctx =
        .ok ("gemini", get_config ctx "GOOGLE_API_KEY" none,
             get_config ctx "GOOGLE_API_BASE" none)) ∧
    (pyTruthy (get_config ctx "GOOGLE_API_KEY" none) = false →
      _get_unified_provider_config ctx =
        .error (.MissingCredential
          "GOOGLE_API_KEY (from database settings or environment) is required")) := by
  refine ⟨fun h1 => ?_, fun h1 => ?_⟩ <;>
    simp [_get_unified_provider_config, h, h1]

/-- Witness for C6: `AI_PROVIDER_FORMAT=bogus` resolves as gemini with
`GOOGLE_API_KEY`. -/
theorem C6_unified_nonopenai_normalizes_witness :
    _get_unified_provider_config
      ⟨none, [("AI_PROVIDER_FORMAT", "bogus"), ("GOOGLE_API_KEY", "g-key")]⟩ =
      .ok ("gemini", some "g-key", none) :=
  (C6_unified_nonopenai_normalizes
      ⟨none, [("AI_PROVIDER_FORMAT", "bogus"), ("GOOGLE_API_KEY", "g-key")]⟩
      (by decide)).1 (by decide)

lemma gemini_isEmpty_false : ("gemini" : String).isEmpty = false := by decide

lemma openai_isEmpty_false : ("openai" : String).isEmpty = false := by decide

/-- C5: separated resolution with the capability format set to `gemini` and
the capability-specific key empty/unset falls back to `GOOGLE_API_KEY`
(with the base taken from `GOOGLE_API_BASE`); it raises `MissingCredential`
only when `GOOGLE_API_KEY` is also empty or unset. -/
theorem C5_separated_gemini_google_fallback (ctx : Ctx) (pt : String)
    (hfmt : strLower ((lookupEnv ctx.env (strUpper pt ++ "_PROVIDER_FORMAT")).getD "")
            = "gemini")
    (hkey : pyTruthy (lookupEnv ctx.env (strUpper pt ++ "_GEMINI_API_KEY")) = false) :
    (∀ x, lookupEnv ctx.env "GOOGLE_API_KEY" = some x → x.isEmpty = false →
      _get_separated_provider_config ctx pt =
        .ok ("gemini", some x, lookupEnv ctx.env "GOOGLE_API_BASE")) ∧
    (pyTruthy (lookupEnv ctx.env "GOOGLE_API_KEY") = false →
      _get_separated_provider_config ctx pt =
        .error (.MissingCredential
          (strUpper pt ++ "_PROVIDER_FORMAT" ++ "=gemini requires either " ++
           strUpper pt ++ "_GEMINI_API_KEY or GOOGLE_API_KEY to be set"))) := by
  constructor
  · intro x hx hxe
    have hx2 : pyTruthy (some x) = true := by simp [pyTruthy, hxe]
    simp [_get_separated_provider_config, hfmt, hkey, hx, hx2, gemini_isEmpty_false]
  · intro hg
    simp [_get_separated_provider_config, hfmt, hkey, hg, gemini_isEmpty_false]

/-- Witness for C5: `TEXT_PROVIDER_FORMAT=gemini`, no `TEXT_GEMINI_API_KEY`,
`GOOGLE_API_KEY=x` yields `("gemini", "x", GOOGLE_API_BASE)`. -/
theorem C5_separated_gemini_google_fallback_witness :
    _get_separated_provider_config
      ⟨none, [("TEXT_PROVIDER_FORMAT", "gemini"), ("GOOGLE_API_KEY", "x"),
              ("GOOGLE_API_BASE", "https://aihubmix.com/gemini")]⟩ "text" =
      .ok ("gemini", some "x", some "https://aihubmix.com/gemini") :=
  (C5_separated_gemini_google_fallback
      ⟨none, [("TEXT_PROVIDER_FORMAT", "gemini"), ("GOOGLE_API_KEY", "x"),
              ("GOOGLE_API_BASE", "https://aihubmix.com/gemini")]⟩ "text"
      (by decide) (by decide)).1 "x" (by decide) (by decide)

/-- C7: separated resolution with the capability format variable set to a
non-empty value that lower-cases to neither `gemini` nor `openai` raises
`InvalidFormat` and returns no credential triple. -/
theorem C7_separated_invalid_format (ctx : Ctx) (pt : String)
    (h0 : (strLower ((lookupEnv ctx.env
            (strUpper pt ++ "_PROVIDER_FORMAT")).getD "")).isEmpty = false)
    (h1 : strLower ((lookupEnv ctx.env
            (strUpper pt ++ "_PROVIDER_FORMAT")).getD "") ≠ "gemini")
    (h2 : strLower ((lookupEnv ctx.env
            (strUpper pt ++ "_PROVIDER_FORMAT")).getD "") ≠ "openai") :
    _get_separated_provider_config ctx pt =
      .error (.InvalidFormat
        ("Invalid " ++ (strUpper pt ++ "_PROVIDER_FORMAT") ++ ": " ++
         strLower ((lookupEnv ctx.env (strUpper pt ++ "_PROVIDER_FORMAT")).getD "") ++
         ". Must be gemini or openai")) := by
  simp [_get_separated_provider_config, h0, h1, h2]

/-- Witness for C7: `IMAGE_PROVIDER_FORMAT=bogus` raises `InvalidFormat`. -/
theorem C7_separated_invalid_format_witness :
    _get_separated_provider_config
      ⟨none, [("IMAGE_PROVIDER_FORMAT", "bogus")]⟩ "image" =
      .error (.InvalidFormat
        "Invalid IMAGE_PROVIDER_FORMAT: bogus. Must be gemini or openai") :=
  C7_separated_invalid_format ⟨none, [("IMAGE_PROVIDER_FORMAT", "bogus")]⟩ "image"
    (by decide) (by decide) (by decide)

/-- C10: separated `openai` resolution returns exactly the raw environment
value of `{CAPABILITY}_OPENAI_API_BASE` as the api_base — no default and no
fallback — so an unset variable yields an absent (`none`) base; by contrast
the unified lookup of `OPENAI_API_BASE` falls back to the default
`"https://aihubmix.com/v1"` when the variable is unset. -/
theorem C10_separated_openai_base_no_default (ctx : Ctx) (pt : String)
    (hfmt : strLower ((lookupEnv ctx.env (strUpper pt ++ "_PROVIDER_FORMAT")).getD "")
            = "openai")
    (hkey : pyTruthy (lookupEnv ctx.env (strUpper pt ++ "_OPENAI_API_KEY")) = true) :
    (_get_separated_provider_config ctx pt =
      .ok ("openai", lookupEnv ctx.env (strUpper pt ++ "_OPENAI_API_KEY"),
           lookupEnv ctx.env (strUpper pt ++ "_OPENAI_API_BASE"))) ∧
    (lookupEnv ctx.env (strUpper pt ++ "_OPENAI_API_BASE") = none →
      _get_separated_provider_config ctx pt =
        .ok ("openai", lookupEnv ctx.env (strUpper pt ++ "_OPENAI_API_KEY"), none)) ∧
    (∀ env2 : Env, lookupEnv env2 "OPENAI_API_BASE" = none →
      get_config ⟨none, env2⟩ "OPENAI_API_BASE" (some "https://aihubmix.com/v1") =
        some "https://aihubmix.com/v1") := by
  refine ⟨?_, fun hb => ?_, fun env2 hb => ?_⟩
  · simp [_get_separated_provider_config, hfmt, hkey, openai_isEmpty_false]
  · simp [_get_separated_provider_config, hfmt, hkey, hb, openai_isEmpty_false]
  · simp [get_config, hb]

/-- Witness for C10: `TEXT_PROVIDER_FORMAT=openai` with the key set but no
`TEXT_OPENAI_API_BASE` yields an absent base. -/
theorem C10_separated_openai_base_no_default_witness :
    _get_separated_provider_config
      ⟨none, [("TEXT_PROVIDER_FORMAT", "openai"), ("TEXT_OPENAI_API_KEY", "sk")]⟩
      "text" = .ok ("openai", some "sk", none) :=
  (C10_separated_openai_base_no_default
      ⟨none, [("TEXT_PROVIDER_FORMAT", "openai"), ("TEXT_OPENAI_API_KEY", "sk")]⟩
      "text" (by decide) (by decide)).1

/-- C2: every successful credential resolution — unified or separated, for
any capability — returns a present, non-empty api_key; an empty or absent
key always raises instead. -/
theorem C2_success_key_nonempty (ctx : Ctx) (pt f : String) (k b : Option String)
    (h : _get_unified_provider_config ctx = .ok (f, k, b) ∨
         _get_separated_provider_config ctx pt = .ok (f, k, b)) :
    ∃ s, k = some s ∧ s.isEmpty = false := by
  rcases h with h | h
  · exact pyTruthy_eq_true_iff.mp (unified_ok_pyTruthy h)
  · exact pyTruthy_eq_true_iff.mp (separated_ok_pyTruthy h)

/-- Witness for C2: a successful unified resolution has a non-empty key. -/
theorem C2_success_key_nonempty_witness :
    ∃ s, (some "g-key" : Option String) = some s ∧ s.isEmpty = false :=
  C2_success_key_nonempty ⟨none, [("GOOGLE_API_KEY", "g-key")]⟩ "text" "gemini"
    (some "g-key") none (Or.inl (by decide))

/-- C3: the factories use separated resolution exactly when the capability
format environment variable is set non-empty (unified resolution otherwise),
and wrap the resolved `(api_key, api_base, model)` in the OpenAI-family
adapter when the resolved format is `openai` and the Genai-family adapter
when it is `gemini`. -/
theorem C3_factory_dispatch (ctx : Ctx) (model : String) :
    (∀ f k b,
      (pyTruthy (lookupEnv ctx.env "TEXT_PROVIDER_FORMAT") = true →
        _get_separated_provider_config ctx "text" = .ok (f, k, b) →
        (f = "openai" →
          get_text_provider ctx model = .ok (.OpenAITextProvider k b model)) ∧
        (f = "gemini" →
          get_text_provider ctx model = .ok (.GenAITextProvider k b model))) ∧
      (pyTruthy (lookupEnv ctx.env "TEXT_PROVIDER_FORMAT") = false →
        _get_unified_provider_config ctx = .ok (f, k, b) →
        (f = "openai" →
          get_text_provider ctx model = .ok (.OpenAITextProvider k b model)) ∧
        (f = "gemini" →
          get_text_provider ctx model = .ok (.GenAITextProvider k b model)))) ∧
    (∀ f k b,
      (pyTruthy (lookupEnv ctx.env "IMAGE_PROVIDER_FORMAT") = true →
        _get_separated_provider_config ctx "image" = .ok (f, k, b) →
        (f = "openai" →
          get_image_provider ctx model = .ok (.OpenAIImageProvider k b model)) ∧
        (f = "gemini" →
          get_image_provider ctx model = .ok (.GenAIImageProvider k b model))) ∧
      (pyTruthy (lookupEnv ctx.env "IMAGE_PROVIDER_FORMAT") = false →
        _get_unified_provider_config ctx = .ok (f, k, b) →
        (f = "openai" →
          get_image_provider ctx model = .ok (.OpenAIImageProvider k b model)) ∧
        (f = "gemini" →
          get_image_provider ctx model = .ok (.GenAIImageProvider k b model)))) := by
  constructor
  · intro f k b
    constructor
    · intro hs h
      constructor <;> intro hf <;> subst hf <;>
        simp [get_text_provider, hs, h, Except.bind, Except.pure] <;> rfl
    · intro hs h
      constructor <;> intro hf <;> subst hf <;>
        simp [get_text_provider, hs, h, Except.bind, Except.pure] <;> rfl
  · intro f k b
    constructor
    · intro hs h
      constructor <;> intro hf <;> subst hf <;>
        simp [get_image_provider, hs, h, Except.bind, Except.pure] <;> rfl
    · intro hs h
      constructor <;> intro hf <;> subst hf <;>
        simp [get_image_provider, hs, h, Except.bind, Except.pure] <;> rfl

/-- Witness for C3: `TEXT_PROVIDER_FORMAT=openai` with a key yields the
OpenAI text adapter built from the separated resolution result. -/
theorem C3_factory_dispatch_witness :
    get_text_provider
      ⟨none, [("TEXT_PROVIDER_FORMAT", "openai"), ("TEXT_OPENAI_API_KEY", "sk")]⟩
      "m" = .ok (.OpenAITextProvider (some "sk") none "m") :=
  (((C3_factory_dispatch
      ⟨none, [("TEXT_PROVIDER_FORMAT", "openai"), ("TEXT_OPENAI_API_KEY", "sk")]⟩
      "m").1 "openai" (some "sk") none).1 (by decide) (by decide)).1 rfl

/-- C1 counterexample: `AI_PROVIDER_FORMAT` is a key consulted during
unified resolution; here it is explicitly present in the settings store with
the empty-string value, yet the resolution uses the environment value
`"openai"` — `get_provider_format` tests the store value for truthiness, not
presence, so the environment variable is not ignored as the claim states. -/
theorem C1_counterexample_empty_store_format :
    lookupStore [("AI_PROVIDER_FORMAT", some "")] "AI_PROVIDER_FORMAT" =
      some (some "") ∧
    get_provider_format
      ⟨some [("AI_PROVIDER_FORMAT", some "")],
       [("AI_PROVIDER_FORMAT", "openai"), ("GOOGLE_API_KEY", "g")]⟩ = "openai" ∧
    _get_unified_provider_config
      ⟨some [("AI_PROVIDER_FORMAT", some "")],
       [("AI_PROVIDER_FORMAT", "openai"), ("GOOGLE_API_KEY", "g")]⟩ =
      .ok ("openai", some "g", some "https://aihubmix.com/v1") := by
  decide

/-- C1 (amended): for every key consulted through `get_config` during
unified credential resolution (`OPENAI_API_KEY`, `GOOGLE_API_KEY`,
`OPENAI_API_BASE`, `GOOGLE_API_BASE`), explicit presence in the settings
store with a string value — even the empty string — wins and the environment
variable of the same name is ignored; for `AI_PROVIDER_FORMAT`, consulted
through `get_provider_format`, the store value wins only when it is
non-empty. -/
theorem C1_store_empty_string_precedence (s : Store) (env : Env)
    (key v : String) (d : Option String)
    (h : lookupStore s key = some (some v)) :
    get_config ⟨some s, env⟩ key d = some v ∧
    (key = "AI_PROVIDER_FORMAT" → v.isEmpty = false →
      get_provider_format ⟨some s, env⟩ = strLower v) := by
  refine ⟨get_config_store_hit env d h, fun hk hv => ?_⟩
  subst hk
  simp [get_provider_format, h, hv]

/-- Witness for C1 (amended): an empty-string store value of
`OPENAI_API_KEY` beats a non-empty environment value. -/
theorem C1_store_empty_string_precedence_witness :
    get_config ⟨some [("OPENAI_API_KEY", some "")], [("OPENAI_API_KEY", "sk-env")]⟩
      "OPENAI_API_KEY" none = some "" :=
  (C1_store_empty_string_precedence [("OPENAI_API_KEY", some "")]
    [("OPENAI_API_KEY", "sk-env")] "OPENAI_API_KEY" "" none (by decide)).1

/-- Witness for C9: with `GOOGLE_API_KEY` only in the environment, an
inaccessible store resolves exactly like an empty accessible store. -/
theorem C9_store_inaccessible_falls_through_witness :
    get_config ⟨none, [("GOOGLE_API_KEY", "g")]⟩ "GOOGLE_API_KEY" none =
      get_config ⟨some [], [("GOOGLE_API_KEY", "g")]⟩ "GOOGLE_API_KEY" none ∧
    get_provider_format ⟨none, [("GOOGLE_API_KEY", "g")]⟩ =
      get_provider_format ⟨some [], [("GOOGLE_API_KEY", "g")]⟩ ∧
    _get_unified_provider_config ⟨none, [("GOOGLE_API_KEY", "g")]⟩ =
      _get_unified_provider_config ⟨some [], [("GOOGLE_API_KEY", "g")]⟩ :=
  C9_store_inaccessible_falls_through [("GOOGLE_API_KEY", "g")] "GOOGLE_API_KEY" none
